import Mathlib

/-!
# Shallow embedding of the web-share signaling relay

The relay keeps four JS `Map`s — `rooms` (room code to host socket id),
`pendingSignals` (room code to buffered signal envelopes), `connectedClients`
(socket id to room code) and `clientsWithCursorAccess` (room code to the set
of socket ids granted cursor access) — plus the socket.io adapter's
room-membership table, and reacts to the inbound events
join / signal / cursor-request / cursor-response / mouseMove / mouseClick /
leave / disconnect.

The embedded handlers follow the `pendingSignals` variant of the server
(the variant whose join handler replays buffered signals). The repository's
`src/server.js` variant has no mailbox at all: its join handler performs no
replay (`serverJsJoin`), its signaling events `offer`/`answer`/`ice-candidate`
are relayed to the room unconditionally with no buffering (`serverJsOffer`,
`serverJsAnswer`, `serverJsIceCandidate`), and its leave/disconnect handlers
broadcast `host-stopped` on host departure (`serverJsLeave`,
`serverJsDisconnect`).

JS `Map`s are modelled as association lists with unique keys, JS `Set`s as
duplicate-free lists, socket ids and room codes as `String`s, and signaling
payloads as opaque `String`s. Each handler takes the shared state and the
sender's socket id and returns the new state together with the list of
outbound `(target socket id, message)` pairs; a room-scoped broadcast
`socket.to(room).emit(...)` is expanded to one pair per current member of
the room other than the sender.
-/

namespace WebShare

/-- Lookup in an association-list model of a JS `Map` with string keys. -/
def lookup {α : Type} : List (String × α) → String → Option α
  | [], _ => none
  | (k, v) :: rest, key => if k = key then some v else lookup rest key

/-- JS `Map.set`: replace the entry if the key is present, append otherwise. -/
def setKey {α : Type} : List (String × α) → String → α → List (String × α)
  | [], k, v => [(k, v)]
  | (k0, v0) :: rest, k, v =>
      if k0 = k then (k, v) :: rest else (k0, v0) :: setKey rest k v

/-- JS `Map.delete`: drop the entry for the key. -/
def eraseKey {α : Type} : List (String × α) → String → List (String × α)
  | [], _ => []
  | (k0, v0) :: rest, k =>
      if k0 = k then eraseKey rest k else (k0, v0) :: eraseKey rest k

/-- JS `Set.add`: insert if absent, keeping insertion order. -/
def addElem (l : List String) (x : String) : List String :=
  if x ∈ l then l else l ++ [x]

/-- JS `Set.delete`: remove the element. -/
def removeElem (l : List String) (x : String) : List String :=
  l.filter (fun y => y != x)

/-- A buffered signaling message `{ id: socket.id, data }`, the shape the
signal handler forwards and the join handler replays. -/
structure Envelope where
  id : String
  data : String
deriving DecidableEq, Repr

/-- The outbound messages the relay emits (event name plus payload). -/
inductive Msg where
  | errorMsg (text : String)
  | noHost (text : String)
  | userJoined (id : String)
  | signalMsg (e : Envelope)
  | cursorRequestMsg (clientId : String)
  | cursorResponseMsg (approved : Bool)
  | mouseMoveMsg (x y : String)
  | mouseClickMsg (button : String)
  | userDisconnected (id : String)
  | hostStopped
  | offerMsg (offer : String)
  | answerMsg (answer : String)
  | iceCandidateMsg (candidate : String)
deriving DecidableEq, Repr

/-- The relay's shared mutable state: the four top-level `Map`s plus the
socket.io adapter's room-membership table (`socket.join` / `socket.leave`). -/
structure ServerState where
  rooms : List (String × String)
  pendingSignals : List (String × List Envelope)
  connectedClients : List (String × String)
  clientsWithCursorAccess : List (String × List String)
  socketRooms : List (String × List String)
deriving DecidableEq, Repr

def initState : ServerState := ⟨[], [], [], [], []⟩

/-- The current members of a socket.io room (`io.sockets.adapter.rooms.get`),
empty when the adapter has no entry. -/
def roomMembers (st : ServerState) (room : String) : List String :=
  (lookup st.socketRooms room).getD []

/-- The room's cursor-access set, empty when the map has no entry
(the optional chaining `clientsWithCursorAccess.get(room)?`). -/
def authList (st : ServerState) (room : String) : List String :=
  (lookup st.clientsWithCursorAccess room).getD []

/-- The authorization test of the mouseMove/mouseClick handlers:
`clientsWithCursorAccess.get(room)?.has(socket.id)`. -/
def isAuthorized (st : ServerState) (room sid : String) : Bool :=
  decide (sid ∈ authList st room)

/-- `socket.to(room).emit(msg)`: one outbound pair per current member of the
room other than the sender. -/
def broadcastTo (st : ServerState) (room sender : String) (m : Msg) :
    List (String × Msg) :=
  (removeElem (roomMembers st room) sender).map (fun x => (x, m))

/-- `socket.join(room)` on the adapter table. -/
def joinAdapter (m : List (String × List String)) (room sid : String) :
    List (String × List String) :=
  setKey m room (addElem ((lookup m room).getD []) sid)

/-- `socket.leave(room)` on the adapter table; the adapter drops a room whose
member set becomes empty. -/
def leaveAdapter (m : List (String × List String)) (room sid : String) :
    List (String × List String) :=
  match lookup m room with
  | none => m
  | some l =>
      let l2 := removeElem l sid
      if l2.isEmpty then eraseKey m room else setKey m room l2

/-- On disconnect the adapter removes the socket from every room before the
disconnect handler runs. -/
def leaveAllAdapter (m : List (String × List String)) (sid : String) :
    List (String × List String) :=
  m.foldr (fun p acc =>
    let l2 := removeElem p.2 sid
    if l2.isEmpty then acc else (p.1, l2) :: acc) []

/-- The tail of a successful join: `socket.join(room)`,
`connectedClients.set(socket.id, room)`, broadcast `user-joined`, and — only
for viewers — replay and delete any pending signals for the room. -/
def joinCommon (st : ServerState) (sid room : String) (isHost : Bool) :
    ServerState × List (String × Msg) :=
  let st2 := { st with
    socketRooms := joinAdapter st.socketRooms room sid,
    connectedClients := setKey st.connectedClients sid room }
  let joinedMsgs := broadcastTo st2 room sid (Msg.userJoined sid)
  if isHost then (st2, joinedMsgs)
  else
    match lookup st2.pendingSignals room with
    | some sigs =>
        ({ st2 with pendingSignals := eraseKey st2.pendingSignals room },
         joinedMsgs ++ sigs.map (fun e => (sid, Msg.signalMsg e)))
    | none => (st2, joinedMsgs)

/-- `socket.on('join')`: duplicate guard (`connectedClients.get(socket.id)
=== room`), then host claim (`AlreadyHosted` error when the room already has
a host) or viewer no-host check, then the common join tail. -/
def handleJoin (st : ServerState) (sid room : String) (isHost : Bool) :
    ServerState × List (String × Msg) :=
  if lookup st.connectedClients sid = some room then (st, [])
  else if isHost then
    if (lookup st.rooms room).isSome then
      (st, [(sid, Msg.errorMsg "Room already has a host")])
    else
      joinCommon { st with rooms := setKey st.rooms room sid } sid room true
  else if (lookup st.rooms room).isNone then
    (st, [(sid, Msg.noHost ("No host found in room: " ++ room))])
  else joinCommon st sid room false

/-- `socket.on('signal')`: forward to the room when it has more than one
member, otherwise append the envelope to the room's pending buffer. -/
def handleSignal (st : ServerState) (sid room data : String) :
    ServerState × List (String × Msg) :=
  if (roomMembers st room).length > 1 then
    (st, broadcastTo st room sid (Msg.signalMsg ⟨sid, data⟩))
  else
    let buf := ((lookup st.pendingSignals room).getD []) ++ [⟨sid, data⟩]
    ({ st with pendingSignals := setKey st.pendingSignals room buf }, [])

/-- `socket.on('cursor-request')`: forward to the room's host, or reply
`no-host` to the requester. -/
def handleCursorRequest (st : ServerState) (sid room : String) :
    ServerState × List (String × Msg) :=
  match lookup st.rooms room with
  | some hostId => (st, [(hostId, Msg.cursorRequestMsg sid)])
  | none => (st, [(sid, Msg.noHost ("No host found in room: " ++ room))])

/-- `socket.on('cursor-response')`: on `approved` add `clientId` to the
room's cursor-access set, then echo the decision to `clientId`. The handler
never consults the sender's identity (`sid` is unused in the source, too). -/
def handleCursorResponse (st : ServerState) (sid room clientId : String)
    (approved : Bool) : ServerState × List (String × Msg) :=
  let granted := setKey st.clientsWithCursorAccess room (addElem (authList st room) clientId)
  let st2 :=
    if approved then { st with clientsWithCursorAccess := granted }
    else st
  (st2, [(clientId, Msg.cursorResponseMsg approved)])

/-- `socket.on('mouseMove')`: relay to the room when the sender is registered
in the event's room and holds cursor access there, otherwise drop silently. -/
def handleMouseMove (st : ServerState) (sid room x y : String) :
    ServerState × List (String × Msg) :=
  if lookup st.connectedClients sid = some room ∧ sid ∈ authList st room then
    (st, broadcastTo st room sid (Msg.mouseMoveMsg x y))
  else (st, [])

/-- `socket.on('mouseClick')`: same authorization test as mouseMove. -/
def handleMouseClick (st : ServerState) (sid room button : String) :
    ServerState × List (String × Msg) :=
  if lookup st.connectedClients sid = some room ∧ sid ∈ authList st room then
    (st, broadcastTo st room sid (Msg.mouseClickMsg button))
  else (st, [])

/-- `socket.on('leave')` of the pendingSignals variant: leave the socket.io
room and unregister; a departing host tears the room down (directory entry,
pending buffer and cursor-access set deleted) and broadcasts
`user-disconnected`; a departing viewer only loses its cursor access. -/
def handleLeave (st : ServerState) (sid room : String) :
    ServerState × List (String × Msg) :=
  let st1 := { st with
    socketRooms := leaveAdapter st.socketRooms room sid,
    connectedClients := eraseKey st.connectedClients sid }
  if lookup st1.rooms room = some sid then
    let st2 := { st1 with
      rooms := eraseKey st1.rooms room,
      pendingSignals := eraseKey st1.pendingSignals room,
      clientsWithCursorAccess := eraseKey st1.clientsWithCursorAccess room }
    (st2, broadcastTo st2 room sid (Msg.userDisconnected sid))
  else if sid ∈ authList st1 room then
    let revoked := setKey st1.clientsWithCursorAccess room (removeElem (authList st1 room) sid)
    ({ st1 with clientsWithCursorAccess := revoked }, [])
  else (st1, [])

/-- `socket.on('disconnect')` of the pendingSignals variant: the adapter has
already removed the socket from every room; look up the registered room and
run the same teardown as leave. -/
def handleDisconnect (st : ServerState) (sid : String) :
    ServerState × List (String × Msg) :=
  let st0 := { st with socketRooms := leaveAllAdapter st.socketRooms sid }
  match lookup st0.connectedClients sid with
  | none => (st0, [])
  | some room =>
    let st1 := { st0 with connectedClients := eraseKey st0.connectedClients sid }
    if lookup st1.rooms room = some sid then
      let st2 := { st1 with
        rooms := eraseKey st1.rooms room,
        pendingSignals := eraseKey st1.pendingSignals room,
        clientsWithCursorAccess := eraseKey st1.clientsWithCursorAccess room }
      (st2, broadcastTo st2 room sid (Msg.userDisconnected sid))
    else if sid ∈ authList st1 room then
      let revoked := setKey st1.clientsWithCursorAccess room (removeElem (authList st1 room) sid)
      ({ st1 with clientsWithCursorAccess := revoked }, [])
    else (st1, [])

/-- `socket.on('leave')` of `src/server.js` (no pendingSignals map): a
departing host deletes the directory entry and the cursor-access set and
broadcasts `host-stopped`; a departing viewer with cursor access loses it and
`user-disconnected` is broadcast. -/
def serverJsLeave (st : ServerState) (sid room : String) :
    ServerState × List (String × Msg) :=
  let st1 := { st with
    socketRooms := leaveAdapter st.socketRooms room sid,
    connectedClients := eraseKey st.connectedClients sid }
  if lookup st1.rooms room = some sid then
    let st2 := { st1 with
      rooms := eraseKey st1.rooms room,
      clientsWithCursorAccess := eraseKey st1.clientsWithCursorAccess room }
    (st2, broadcastTo st2 room sid Msg.hostStopped)
  else if sid ∈ authList st1 room then
    let revoked := setKey st1.clientsWithCursorAccess room (removeElem (authList st1 room) sid)
    let st2 := { st1 with clientsWithCursorAccess := revoked }
    (st2, broadcastTo st2 room sid (Msg.userDisconnected sid))
  else (st1, [])

/-- `socket.on('disconnect')` of `src/server.js`. -/
def serverJsDisconnect (st : ServerState) (sid : String) :
    ServerState × List (String × Msg) :=
  let st0 := { st with socketRooms := leaveAllAdapter st.socketRooms sid }
  match lookup st0.connectedClients sid with
  | none => (st0, [])
  | some room =>
    let st1 := { st0 with connectedClients := eraseKey st0.connectedClients sid }
    if lookup st1.rooms room = some sid then
      let st2 := { st1 with
        rooms := eraseKey st1.rooms room,
        clientsWithCursorAccess := eraseKey st1.clientsWithCursorAccess room }
      (st2, broadcastTo st2 room sid Msg.hostStopped)
    else if sid ∈ authList st1 room then
      let revoked := setKey st1.clientsWithCursorAccess room (removeElem (authList st1 room) sid)
      let st2 := { st1 with clientsWithCursorAccess := revoked }
      (st2, broadcastTo st2 room sid (Msg.userDisconnected sid))
    else (st1, [])

/-- `socket.on('join')` of `src/server.js`: same duplicate guard, host claim
and viewer no-host branch as the pendingSignals variant, but no replay step —
this variant has no pendingSignals map. -/
def serverJsJoin (st : ServerState) (sid room : String) (isHost : Bool) :
    ServerState × List (String × Msg) :=
  if lookup st.connectedClients sid = some room then (st, [])
  else if isHost then
    if (lookup st.rooms room).isSome then
      (st, [(sid, Msg.errorMsg "Room already has a host")])
    else
      let st2 := { st with
        rooms := setKey st.rooms room sid,
        socketRooms := joinAdapter st.socketRooms room sid,
        connectedClients := setKey st.connectedClients sid room }
      (st2, broadcastTo st2 room sid (Msg.userJoined sid))
  else if (lookup st.rooms room).isNone then
    (st, [(sid, Msg.noHost ("No host found in room: " ++ room))])
  else
    let st2 := { st with
      socketRooms := joinAdapter st.socketRooms room sid,
      connectedClients := setKey st.connectedClients sid room }
    (st2, broadcastTo st2 room sid (Msg.userJoined sid))

/-- `socket.on('offer')` of `src/server.js`: relay `{ offer }` to the room
excluding the sender, unconditionally — no membership count, no buffering,
no state change. -/
def serverJsOffer (st : ServerState) (sid room offer : String) :
    ServerState × List (String × Msg) :=
  (st, broadcastTo st room sid (Msg.offerMsg offer))

/-- `socket.on('answer')` of `src/server.js`: relay `{ answer }` to the room
excluding the sender, unconditionally. -/
def serverJsAnswer (st : ServerState) (sid room answer : String) :
    ServerState × List (String × Msg) :=
  (st, broadcastTo st room sid (Msg.answerMsg answer))

/-- `socket.on('ice-candidate')` of `src/server.js`: relay `{ candidate }`
to the room excluding the sender, unconditionally. -/
def serverJsIceCandidate (st : ServerState) (sid room candidate : String) :
    ServerState × List (String × Msg) :=
  (st, broadcastTo st room sid (Msg.iceCandidateMsg candidate))

/-- Whether a message carries a signaling payload: a buffered or forwarded
`signal`, or a relayed offer/answer/ICE candidate. -/
def isRelayMsg : Msg → Bool
  | .signalMsg _ => true
  | .offerMsg _ => true
  | .answerMsg _ => true
  | .iceCandidateMsg _ => true
  | _ => false

/-- The inbound events of the relay, each tagged with its sender's id. -/
inductive Event where
  | join (sid room : String) (isHost : Bool)
  | signal (sid room data : String)
  | cursorRequest (sid room : String)
  | cursorResponse (sid room clientId : String) (approved : Bool)
  | mouseMove (sid room x y : String)
  | mouseClick (sid room button : String)
  | leave (sid room : String)
  | disconnect (sid : String)
deriving DecidableEq, Repr

/-- Dispatch of one inbound event. -/
def step (st : ServerState) : Event → ServerState × List (String × Msg)
  | .join sid room h => handleJoin st sid room h
  | .signal sid room d => handleSignal st sid room d
  | .cursorRequest sid room => handleCursorRequest st sid room
  | .cursorResponse sid room c a => handleCursorResponse st sid room c a
  | .mouseMove sid room x y => handleMouseMove st sid room x y
  | .mouseClick sid room b => handleMouseClick st sid room b
  | .leave sid room => handleLeave st sid room
  | .disconnect sid => handleDisconnect st sid

/-- The state reached by a trace of events from a given start state. -/
def runFrom (st : ServerState) (evs : List Event) : ServerState :=
  evs.foldl (fun s e => (step s e).1) st

/-- The state reached by a trace of events from the empty initial state. -/
def run (evs : List Event) : ServerState := runFrom initState evs

/-- Whether a message is a `signal` forward/replay. -/
def isSignalMsg : Msg → Bool
  | .signalMsg _ => true
  | _ => false

/-- How many `signal` messages an emission batch contains. -/
def countSignalMsgs (out : List (String × Msg)) : Nat :=
  (out.filter (fun p => isSignalMsg p.2)).length

/-- The current length of a room's pending-signal buffer. -/
def pendingLen (st : ServerState) (room : String) : Nat :=
  ((lookup st.pendingSignals room).getD []).length

/-- How many buffered envelopes one step replays for the room: only a join
emits replay `signal` messages. -/
def stepReplayed (st : ServerState) (e : Event) (room : String) : Nat :=
  match e with
  | .join _ r _ => if r = room then countSignalMsgs (step st e).2 else 0
  | _ => 0

/-- How many envelopes one step appends to the room's buffer, measured as the
growth of the buffer (the buffer only ever grows by appends). -/
def stepAppended (st : ServerState) (e : Event) (room : String) : Nat :=
  pendingLen (step st e).1 room - pendingLen st room

/-- Total replay deliveries for a room over a trace. -/
def replayedFrom : ServerState → List Event → String → Nat
  | _, [], _ => 0
  | st, e :: es, room => stepReplayed st e room + replayedFrom (step st e).1 es room

/-- Total buffer appends for a room over a trace. -/
def appendedFrom : ServerState → List Event → String → Nat
  | _, [], _ => 0
  | st, e :: es, room => stepAppended st e room + appendedFrom (step st e).1 es room

/-- Whether an event is a cursor-response granting `viewerId` access in
`room`. -/
def grantsEvent (e : Event) (room viewerId : String) : Bool :=
  match e with
  | .cursorResponse _ r c a => a && (r == room) && (c == viewerId)
  | _ => false

/-- Whether a trace contains a cursor-response granting `viewerId` access in
`room`. -/
def grantedIn (evs : List Event) (room viewerId : String) : Bool :=
  evs.any (fun e => grantsEvent e room viewerId)

/-! ## Association-list and set lemmas -/

theorem lookup_setKey {α : Type} (m : List (String × α)) (k : String) (v : α)
    (k' : String) :
    lookup (setKey m k v) k' = if k = k' then some v else lookup m k' := by
  induction m with
  | nil => simp [setKey, lookup]
  | cons p rest ih =>
    obtain ⟨k0, v0⟩ := p
    by_cases h0 : k0 = k
    · subst h0
      by_cases h1 : k0 = k' <;> simp [setKey, lookup, h1]
    · by_cases h1 : k0 = k'
      · subst h1
        have hk : ¬ k = k0 := fun h => h0 h.symm
        simp [setKey, lookup, h0, hk]
      · simp [setKey, lookup, h0, h1, ih]

theorem lookup_eraseKey {α : Type} (m : List (String × α)) (k k' : String) :
    lookup (eraseKey m k) k' = if k = k' then none else lookup m k' := by
  induction m with
  | nil => simp [eraseKey, lookup]
  | cons p rest ih =>
    obtain ⟨k0, v0⟩ := p
    by_cases h0 : k0 = k
    · subst h0
      by_cases h1 : k0 = k'
      · subst h1; simp [eraseKey, lookup, ih]
      · have hk : ¬ k0 = k' := h1
        simp [eraseKey, lookup, ih, hk]
    · by_cases h1 : k0 = k'
      · subst h1
        have hk : ¬ k = k0 := fun h => h0 h.symm
        simp [eraseKey, lookup, h0, hk]
      · simp [eraseKey, lookup, h0, h1, ih]

theorem mem_removeElem {l : List String} {x y : String} :
    y ∈ removeElem l x ↔ y ∈ l ∧ y ≠ x := by
  simp [removeElem, List.mem_filter]

theorem not_mem_removeElem_self (l : List String) (x : String) :
    x ∉ removeElem l x := by
  simp [mem_removeElem]

theorem mem_addElem {l : List String} {x y : String} :
    y ∈ addElem l x ↔ y ∈ l ∨ y = x := by
  by_cases h : x ∈ l
  · simp only [addElem, if_pos h]
    exact ⟨Or.inl, fun hy => hy.elim id (fun he => he ▸ h)⟩
  · simp [addElem, if_neg h]

theorem removeElem_removeElem (l : List String) (x : String) :
    removeElem (removeElem l x) x = removeElem l x := by
  apply List.filter_eq_self.2
  intro a ha
  exact (List.mem_filter.1 ha).2

theorem lookup_leaveAdapter_getD (m : List (String × List String))
    (room sid : String) :
    (lookup (leaveAdapter m room sid) room).getD [] =
      removeElem ((lookup m room).getD []) sid := by
  unfold leaveAdapter
  cases h : lookup m room with
  | none => simp [h, removeElem]
  | some l =>
    by_cases he : (removeElem l sid).isEmpty
    · have hnil : removeElem l sid = [] := List.isEmpty_iff.1 he
      simp [h, he, lookup_eraseKey, hnil]
    · simp [h, he, lookup_setKey]

theorem leaveAllAdapter_cons (p : String × List String)
    (rest : List (String × List String)) (sid : String) :
    leaveAllAdapter (p :: rest) sid =
      if (removeElem p.2 sid).isEmpty then leaveAllAdapter rest sid
      else (p.1, removeElem p.2 sid) :: leaveAllAdapter rest sid := rfl

theorem lookup_eq_none_of_not_mem_keys {α : Type} (m : List (String × α))
    (k : String) (h : k ∉ m.map Prod.fst) : lookup m k = none := by
  induction m with
  | nil => rfl
  | cons p rest ih =>
    simp only [List.map_cons, List.mem_cons] at h
    have h0 : ¬ p.1 = k := fun he => h (Or.inl he.symm)
    obtain ⟨k0, l0⟩ := p
    simp only [lookup, if_neg h0]
    exact ih (fun hm => h (Or.inr hm))

theorem lookup_leaveAllAdapter_none (m : List (String × List String))
    (sid k : String) (h : lookup m k = none) :
    lookup (leaveAllAdapter m sid) k = none := by
  induction m with
  | nil => rfl
  | cons p rest ih =>
    obtain ⟨k0, l0⟩ := p
    simp only [lookup] at h
    by_cases h0 : k0 = k
    · simp [h0] at h
    · simp only [if_neg h0] at h
      rw [leaveAllAdapter_cons]
      by_cases he : (removeElem l0 sid).isEmpty
      · simpa [he] using ih h
      · simpa [he, lookup, h0] using ih h

theorem lookup_leaveAllAdapter_getD (m : List (String × List String))
    (sid room : String) (hnd : (m.map Prod.fst).Nodup) :
    (lookup (leaveAllAdapter m sid) room).getD [] =
      removeElem ((lookup m room).getD []) sid := by
  induction m with
  | nil => simp [leaveAllAdapter, lookup, removeElem]
  | cons p rest ih =>
    obtain ⟨k0, l0⟩ := p
    simp only [List.map_cons, List.nodup_cons] at hnd
    obtain ⟨hk0, hrest⟩ := hnd
    rw [leaveAllAdapter_cons]
    by_cases h0 : k0 = room
    · subst h0
      have hnone : lookup rest k0 = none :=
        lookup_eq_none_of_not_mem_keys rest k0 hk0
      by_cases he : (removeElem l0 sid).isEmpty
      · have hnil : removeElem l0 sid = [] := List.isEmpty_iff.1 he
        simp [he, lookup, lookup_leaveAllAdapter_none _ _ _ hnone, hnil]
      · simp [he, lookup]
    · by_cases he : (removeElem l0 sid).isEmpty
      · simpa [he, lookup, h0] using ih hrest
      · simpa [he, lookup, h0] using ih hrest

/-! ## Frame lemmas: which handlers touch which state components -/

theorem handleCursorRequest_state (st : ServerState) (sid room : String) :
    (handleCursorRequest st sid room).1 = st := by
  unfold handleCursorRequest
  cases lookup st.rooms room <;> rfl

theorem handleMouseMove_state (st : ServerState) (sid room x y : String) :
    (handleMouseMove st sid room x y).1 = st := by
  unfold handleMouseMove
  split <;> rfl

theorem handleMouseClick_state (st : ServerState) (sid room button : String) :
    (handleMouseClick st sid room button).1 = st := by
  unfold handleMouseClick
  split <;> rfl

theorem handleJoin_cursorAccess (st : ServerState) (sid room : String)
    (isHost : Bool) :
    (handleJoin st sid room isHost).1.clientsWithCursorAccess =
      st.clientsWithCursorAccess := by
  unfold handleJoin joinCommon
  dsimp only
  repeat' split
  all_goals rfl

theorem handleSignal_cursorAccess (st : ServerState) (sid room d : String) :
    (handleSignal st sid room d).1.clientsWithCursorAccess =
      st.clientsWithCursorAccess := by
  unfold handleSignal
  split <;> rfl

theorem handleCursorResponse_deny_state (st : ServerState)
    (sid room clientId : String) :
    (handleCursorResponse st sid room clientId false).1 = st := rfl

theorem handleCursorResponse_authList (st : ServerState)
    (sid room clientId : String) (approved : Bool) (r2 : String) :
    authList (handleCursorResponse st sid room clientId approved).1 r2 =
      if approved ∧ room = r2 then addElem (authList st room) clientId
      else authList st r2 := by
  cases approved with
  | false => simp [handleCursorResponse, authList]
  | true =>
    by_cases h2 : room = r2
    · subst h2; simp [handleCursorResponse, authList, lookup_setKey]
    · simp [handleCursorResponse, authList, lookup_setKey, h2]

theorem handleLeave_authList_mem (st : ServerState) (sid room : String)
    {r2 v : String} (hv : v ∈ authList (handleLeave st sid room).1 r2) :
    v ∈ authList st r2 := by
  unfold handleLeave at hv
  dsimp only at hv
  split at hv
  · by_cases h2 : room = r2
    · subst h2
      simp [authList, lookup_eraseKey] at hv
    · simpa [authList, lookup_eraseKey, h2] using hv
  · split at hv
    · by_cases h2 : room = r2
      · subst h2
        simp only [authList, lookup_setKey, if_pos rfl, Option.getD_some] at hv
        exact (mem_removeElem.1 hv).1
      · simpa [authList, lookup_setKey, h2] using hv
    · exact hv

theorem handleDisconnect_authList_mem (st : ServerState) (sid : String)
    {r2 v : String} (hv : v ∈ authList (handleDisconnect st sid).1 r2) :
    v ∈ authList st r2 := by
  unfold handleDisconnect at hv
  dsimp only at hv
  cases hc : lookup st.connectedClients sid with
  | none => simpa [authList, hc] using hv
  | some room =>
    simp only [hc] at hv
    split at hv
    · by_cases h2 : room = r2
      · subst h2
        simp [authList, lookup_eraseKey] at hv
      · simpa [authList, lookup_eraseKey, h2] using hv
    · split at hv
      · by_cases h2 : room = r2
        · subst h2
          simp only [authList, lookup_setKey, if_pos rfl, Option.getD_some] at hv
          exact (mem_removeElem.1 hv).1
        · simpa [authList, lookup_setKey, h2] using hv
      · exact hv

/-! ## Authorization provenance: access only ever comes from an approved
cursor-response naming exactly that room and that identifier -/

theorem authList_step_mem (st : ServerState) (e : Event) (room v : String)
    (hv : v ∈ authList (step st e).1 room) :
    v ∈ authList st room ∨ grantsEvent e room v = true := by
  cases e with
  | join sid r h =>
    left
    simpa [authList, step, handleJoin_cursorAccess] using hv
  | signal sid r d =>
    left
    simpa [authList, step, handleSignal_cursorAccess] using hv
  | cursorRequest sid r =>
    left
    simpa [step, handleCursorRequest_state] using hv
  | cursorResponse sid r c a =>
    rw [step, handleCursorResponse_authList] at hv
    by_cases hcond : a = true ∧ r = room
    · rw [if_pos ⟨hcond.1, hcond.2⟩] at hv
      rcases mem_addElem.1 hv with hm | hm
      · left; rw [hcond.2] at hm; exact hm
      · right; simp [grantsEvent, hcond.1, hcond.2, hm]
    · rw [if_neg (fun hx => hcond ⟨hx.1, hx.2⟩)] at hv
      left; exact hv
  | mouseMove sid r x y =>
    left
    simpa [step, handleMouseMove_state] using hv
  | mouseClick sid r b =>
    left
    simpa [step, handleMouseClick_state] using hv
  | leave sid r =>
    left
    exact handleLeave_authList_mem st sid r hv
  | disconnect sid =>
    left
    exact handleDisconnect_authList_mem st sid hv

theorem authList_runFrom_mem (evs : List Event) (st : ServerState)
    (room v : String) (hv : v ∈ authList (runFrom st evs) room) :
    v ∈ authList st room ∨ grantedIn evs room v = true := by
  induction evs generalizing st with
  | nil => exact Or.inl hv
  | cons e es ih =>
    have hstep : runFrom st (e :: es) = runFrom (step st e).1 es := rfl
    have hcons : grantedIn (e :: es) room v =
        (grantsEvent e room v || grantedIn es room v) := rfl
    rw [hstep] at hv
    rcases ih (step st e).1 hv with h1 | h1
    · rcases authList_step_mem st e room v h1 with h2 | h2
      · exact Or.inl h2
      · right; rw [hcons, h2, Bool.true_or]
    · right; rw [hcons, h1, Bool.or_true]

/-! ## Counting lemmas for the signal mailbox -/

theorem countSignalMsgs_append (a b : List (String × Msg)) :
    countSignalMsgs (a ++ b) = countSignalMsgs a + countSignalMsgs b := by
  simp [countSignalMsgs, List.filter_append]

theorem countSignalMsgs_broadcastTo (st : ServerState) (room sender u : String) :
    countSignalMsgs (broadcastTo st room sender (Msg.userJoined u)) = 0 := by
  unfold countSignalMsgs broadcastTo
  induction removeElem (roomMembers st room) sender with
  | nil => rfl
  | cons a t ih => simpa [List.filter, isSignalMsg] using ih

theorem countSignalMsgs_replay (q : List Envelope) (sid : String) :
    countSignalMsgs (q.map (fun e => (sid, Msg.signalMsg e))) = q.length := by
  unfold countSignalMsgs
  induction q with
  | nil => rfl
  | cons a t ih => simpa [List.filter, isSignalMsg] using ih

theorem relay_filter_broadcast_userJoined (st : ServerState)
    (room sender u : String) :
    ((broadcastTo st room sender (Msg.userJoined u)).filter
      (fun q => isRelayMsg q.2)) = [] := by
  unfold broadcastTo
  induction removeElem (roomMembers st room) sender with
  | nil => rfl
  | cons a t ih => simpa [List.filter, isRelayMsg] using ih

theorem serverJsJoin_no_relay (st : ServerState) (sid room : String)
    (h : Bool) :
    ((serverJsJoin st sid room h).2.filter (fun q => isRelayMsg q.2))
      = [] := by
  unfold serverJsJoin
  dsimp only
  repeat' split
  all_goals first
    | rfl
    | (simp [List.filter, isRelayMsg]; done)
    | exact relay_filter_broadcast_userJoined _ _ _ _

theorem handleJoin_replay_eq (st : ServerState) (sid room : String) (h : Bool) :
    countSignalMsgs (handleJoin st sid room h).2 +
      pendingLen (handleJoin st sid room h).1 room = pendingLen st room := by
  by_cases hguard : lookup st.connectedClients sid = some room
  · simp [handleJoin, hguard, countSignalMsgs, List.filter]
  · cases h with
    | true =>
      by_cases hsome : (lookup st.rooms room).isSome
      · simp [handleJoin, hguard, hsome, countSignalMsgs, List.filter, isSignalMsg]
      · simp [handleJoin, joinCommon, hguard, hsome,
          countSignalMsgs_broadcastTo, pendingLen]
    | false =>
      by_cases hnone : (lookup st.rooms room).isNone
      · simp [handleJoin, hguard, hnone, countSignalMsgs, List.filter, isSignalMsg]
      · cases hq : lookup st.pendingSignals room with
        | none =>
          simp [handleJoin, joinCommon, hguard, hnone, hq,
            countSignalMsgs_broadcastTo, pendingLen]
        | some sigs =>
          simp [handleJoin, joinCommon, hguard, hnone, hq, countSignalMsgs_append,
            countSignalMsgs_broadcastTo, countSignalMsgs_replay, pendingLen,
            lookup_eraseKey]

theorem c3_step_bound (st : ServerState) (e : Event) (room : String) :
    stepReplayed st e room + pendingLen (step st e).1 room ≤
      stepAppended st e room + pendingLen st room := by
  have htriv : pendingLen (step st e).1 room ≤
      stepAppended st e room + pendingLen st room := by
    unfold stepAppended
    exact le_tsub_add
  cases e with
  | join sid r h =>
    by_cases hr : r = room
    · subst hr
      have heq := handleJoin_replay_eq st sid r h
      have hstep : stepReplayed st (Event.join sid r h) r =
          countSignalMsgs (step st (Event.join sid r h)).2 := by
        simp [stepReplayed]
      rw [hstep]
      have : countSignalMsgs (step st (Event.join sid r h)).2 +
          pendingLen (step st (Event.join sid r h)).1 r = pendingLen st r := heq
      rw [this]
      exact Nat.le_add_left _ _
    · simp only [stepReplayed, if_neg hr, Nat.zero_add]
      exact htriv
  | signal sid r d => simpa [stepReplayed] using htriv
  | cursorRequest sid r => simpa [stepReplayed] using htriv
  | cursorResponse sid r c a => simpa [stepReplayed] using htriv
  | mouseMove sid r x y => simpa [stepReplayed] using htriv
  | mouseClick sid r b => simpa [stepReplayed] using htriv
  | leave sid r => simpa [stepReplayed] using htriv
  | disconnect sid => simpa [stepReplayed] using htriv

theorem replayed_pending_bound (evs : List Event) (st : ServerState)
    (room : String) :
    replayedFrom st evs room + pendingLen (runFrom st evs) room ≤
      appendedFrom st evs room + pendingLen st room := by
  induction evs generalizing st with
  | nil => simp [replayedFrom, appendedFrom, runFrom]
  | cons e es ih =>
    have h1 := c3_step_bound st e room
    have h2 := ih (step st e).1
    have hrun : runFrom st (e :: es) = runFrom (step st e).1 es := rfl
    simp only [replayedFrom, appendedFrom, hrun]
    omega

/-! ## Revocation on departure -/

theorem not_mem_authList_handleLeave (st : ServerState) (sid room : String) :
    sid ∉ authList (handleLeave st sid room).1 room := by
  unfold handleLeave
  dsimp only
  split
  · simp [authList, lookup_eraseKey]
  · split
    · simp [authList, lookup_setKey, mem_removeElem]
    · rename_i hmem
      exact hmem

theorem not_mem_authList_handleDisconnect (st : ServerState) (sid : String)
    {room : String} (hreg : lookup st.connectedClients sid = some room) :
    sid ∉ authList (handleDisconnect st sid).1 room := by
  unfold handleDisconnect
  dsimp only
  rw [hreg]
  dsimp only
  split
  · simp [authList, lookup_eraseKey]
  · split
    · simp [authList, lookup_setKey, mem_removeElem]
    · rename_i hmem
      exact hmem

/-! ## Claim theorems -/

/-- Claim C1 (code bug in the source): the cursor-response handler never
checks the caller against the room's host. In a reachable state where `H`
hosts room `R` and `V` is a viewer, the non-host `V` sends
`cursor-response {room: R, clientId: V, approved: true}` and the relay
records the grant for `V` anyway, instead of ignoring the event as the
specification requires. -/
theorem c1_cursor_response_ignores_caller_identity :
    lookup (run [Event.join "H" "R" true, Event.join "V" "R" false]).rooms "R"
        = some "H" ∧
    ("V" : String) ≠ "H" ∧
    authList (run [Event.join "H" "R" true, Event.join "V" "R" false]) "R"
        = [] ∧
    authList ((step (run [Event.join "H" "R" true, Event.join "V" "R" false])
        (Event.cursorResponse "V" "R" "V" true)).1) "R" = ["V"] := by
  decide

/-- Claim C2, counterexample: after the host `H` of room `R` approves a
cursor-response naming `G`, an identifier that never joined anything, `G` is
in `R`'s Authorization Set while the Registry has no entry for `G` — the
containment half of invariant I3 fails on a reachable state built from
join and cursor-response events only. -/
theorem c2_auth_set_contains_nonmember :
    "G" ∈ authList
        (run [Event.join "H" "R" true, Event.cursorResponse "H" "R" "G" true])
        "R" ∧
    lookup (run [Event.join "H" "R" true,
        Event.cursorResponse "H" "R" "G" true]).connectedClients "G" = none ∧
    lookup (run [Event.join "H" "R" true,
        Event.cursorResponse "H" "R" "G" true]).rooms "R" = some "H" := by
  decide

/-- Claim C2 (amended): an identifier in a room's Authorization Set need not
be a current viewer member of that room, because cursor-response records the
named identifier without any membership check; the removal direction does
hold — handling a connection's leave for a room, or the disconnect of a
connection registered in a room, leaves its identifier outside that room's
Authorization Set. -/
theorem c2_auth_removal_on_departure :
    (∀ (st : ServerState) (sid room : String),
      sid ∉ authList ((step st (Event.leave sid room)).1) room) ∧
    (∀ (st : ServerState) (sid room : String),
      lookup st.connectedClients sid = some room →
      sid ∉ authList ((step st (Event.disconnect sid)).1) room) :=
  ⟨fun st sid room => not_mem_authList_handleLeave st sid room,
   fun st sid _room hreg => not_mem_authList_handleDisconnect st sid hreg⟩

/-- Claim C2, witness for the amended theorem at a concrete reachable
state: the granted viewer `V` of room `R` is no longer authorized after its
leave, and likewise after its disconnect. -/
theorem c2_auth_removal_on_departure_witness :
    "V" ∉ authList ((step (run [Event.join "H" "R" true,
        Event.join "V" "R" false, Event.cursorResponse "H" "R" "V" true])
        (Event.leave "V" "R")).1) "R" ∧
    "V" ∉ authList ((step (run [Event.join "H" "R" true,
        Event.join "V" "R" false, Event.cursorResponse "H" "R" "V" true])
        (Event.disconnect "V")).1) "R" :=
  ⟨c2_auth_removal_on_departure.1 _ "V" "R",
   c2_auth_removal_on_departure.2 _ "V" "R" (by decide)⟩

/-- Claim C9: after a viewer's leave naming its room, or its disconnect, the
authorization test used by the input handlers evaluates to false for that
identifier in that room. -/
theorem c9_departure_revokes_authorization (st : ServerState)
    (sid room : String) (hreg : lookup st.connectedClients sid = some room)
    (hviewer : lookup st.rooms room ≠ some sid) :
    isAuthorized ((step st (Event.leave sid room)).1) room sid = false ∧
    isAuthorized ((step st (Event.disconnect sid)).1) room sid = false := by
  constructor
  · have hm := not_mem_authList_handleLeave st sid room
    simpa [isAuthorized, step] using hm
  · have hm := not_mem_authList_handleDisconnect st sid hreg
    simpa [isAuthorized, step] using hm

/-- Claim C9, witness: the granted viewer `V` of room `R`, registered in `R`
and not its host, fails the authorization test after leave and after
disconnect. -/
theorem c9_departure_revokes_authorization_witness :
    isAuthorized ((step (run [Event.join "H" "R" true,
        Event.join "V" "R" false, Event.cursorResponse "H" "R" "V" true])
        (Event.leave "V" "R")).1) "R" "V" = false ∧
    isAuthorized ((step (run [Event.join "H" "R" true,
        Event.join "V" "R" false, Event.cursorResponse "H" "R" "V" true])
        (Event.disconnect "V")).1) "R" "V" = false :=
  c9_departure_revokes_authorization _ "V" "R" (by decide) (by decide)

/-- Claim C10: a cursor-response with `approved = false` leaves the entire
state — in particular the Authorization Table — unchanged; a cursor-response
changes the authorization test only by possibly turning it true for exactly
the named identifier in the named room; and none of join, signal,
cursor-request, mouseMove or mouseClick ever changes the Authorization
Table. Hence only leave, disconnect (and through them host departure) ever
remove an identifier from a room's Authorization Set, and a previously
granted viewer stays authorized across a deny. -/
theorem c10_deny_preserves_authorization :
    (∀ (st : ServerState) (sid room v : String),
      (step st (Event.cursorResponse sid room v false)).1 = st) ∧
    (∀ (st : ServerState) (sid room v : String) (a : Bool) (r2 w : String),
      isAuthorized ((step st (Event.cursorResponse sid room v a)).1) r2 w =
        (isAuthorized st r2 w || (a && (r2 == room) && (w == v)))) ∧
    (∀ (st : ServerState) (sid room : String) (h : Bool),
      ((step st (Event.join sid room h)).1).clientsWithCursorAccess =
        st.clientsWithCursorAccess) ∧
    (∀ (st : ServerState) (sid room d : String),
      ((step st (Event.signal sid room d)).1).clientsWithCursorAccess =
        st.clientsWithCursorAccess) ∧
    (∀ (st : ServerState) (sid room : String),
      (step st (Event.cursorRequest sid room)).1 = st) ∧
    (∀ (st : ServerState) (sid room x y : String),
      (step st (Event.mouseMove sid room x y)).1 = st) ∧
    (∀ (st : ServerState) (sid room b : String),
      (step st (Event.mouseClick sid room b)).1 = st) := by
  refine ⟨fun st sid room v => rfl, ?_, fun st sid room h => handleJoin_cursorAccess st sid room h,
    fun st sid room d => handleSignal_cursorAccess st sid room d,
    fun st sid room => handleCursorRequest_state st sid room,
    fun st sid room x y => handleMouseMove_state st sid room x y,
    fun st sid room b => handleMouseClick_state st sid room b⟩
  intro st sid room v a r2 w
  have hauth := handleCursorResponse_authList st sid room v a r2
  rw [show (step st (Event.cursorResponse sid room v a)).1 =
      (handleCursorResponse st sid room v a).1 from rfl] at *
  unfold isAuthorized
  rw [hauth]
  cases a with
  | false => simp
  | true =>
    by_cases hr : room = r2
    · subst hr
      by_cases hw : w = v
      · subst hw
        simp [mem_addElem]
      · simp [mem_addElem, hw]
    · have hr2 : (r2 == room) = false := by
        simp [Ne.symm hr]
      simp [hr, hr2]

/-- Claim C4, counterexample: after host `A` of room `R` leaves, the stale
viewer registration of `V` makes `V`'s host join for `R` a silent no-op —
no `AlreadyHosted` error is emitted, contradicting the claim that every
non-winning host join receives the error — while a fresh connection `C`
then claims the host slot. -/
theorem c4_registered_caller_host_join_silent :
    step (run [Event.join "A" "R" true, Event.join "V" "R" false,
        Event.leave "A" "R"]) (Event.join "V" "R" true) =
      (run [Event.join "A" "R" true, Event.join "V" "R" false,
        Event.leave "A" "R"], []) ∧
    lookup ((step (step (run [Event.join "A" "R" true,
        Event.join "V" "R" false, Event.leave "A" "R"])
        (Event.join "V" "R" true)).1 (Event.join "C" "R" true)).1).rooms "R"
      = some "C" := by
  decide

/-- Claim C4 (amended): while a room has a host, no host join can change the
host entry (at most one claim ever succeeds without an intervening host
departure); a host join from a caller not registered in that room is
rejected with exactly one `AlreadyHosted` error to that caller and no state
change; a host join from a caller already registered in that room is
silently ignored with no state change (the duplicate-join guard); and from a
hostless room a host join by an unregistered caller installs that caller as
host. -/
theorem c4_single_host_claim (st : ServerState) (sid room : String) :
    (∀ h, lookup st.rooms room = some h →
      lookup ((step st (Event.join sid room true)).1).rooms room = some h) ∧
    (∀ h, lookup st.rooms room = some h →
      lookup st.connectedClients sid ≠ some room →
      step st (Event.join sid room true) =
        (st, [(sid, Msg.errorMsg "Room already has a host")])) ∧
    (lookup st.connectedClients sid = some room →
      step st (Event.join sid room true) = (st, [])) ∧
    (lookup st.rooms room = none →
      lookup st.connectedClients sid ≠ some room →
      lookup ((step st (Event.join sid room true)).1).rooms room = some sid) := by
  refine ⟨?_, ?_, ?_, ?_⟩
  · intro h hh
    by_cases hguard : lookup st.connectedClients sid = some room
    · simp [step, handleJoin, hguard, hh]
    · simp [step, handleJoin, hguard, hh]
  · intro h hh hguard
    simp [step, handleJoin, hguard, hh]
  · intro hguard
    simp [step, handleJoin, hguard]
  · intro hh hguard
    simp [step, handleJoin, joinCommon, hguard, hh, lookup_setKey]

/-- Claim C4, witness: with `A` hosting `R`, a host join from the fresh
connection `B` leaves the directory pointing at `A` and sends `B` exactly
the `AlreadyHosted` error. -/
theorem c4_single_host_claim_witness :
    lookup ((step (run [Event.join "A" "R" true])
        (Event.join "B" "R" true)).1).rooms "R" = some "A" ∧
    step (run [Event.join "A" "R" true]) (Event.join "B" "R" true) =
      (run [Event.join "A" "R" true],
        [("B", Msg.errorMsg "Room already has a host")]) :=
  ⟨(c4_single_host_claim (run [Event.join "A" "R" true]) "B" "R").1 "A"
      (by decide),
   (c4_single_host_claim (run [Event.join "A" "R" true]) "B" "R").2.1 "A"
      (by decide) (by decide)⟩

/-- Claim C6, counterexample: after host `A` of room `R` departs, the stale
viewer `V` (still registered in `R`) sends a viewer join for the now
hostless `R`; the duplicate-join guard silently ignores it, so no `NoHost`
message is emitted, contradicting the claim that every viewer join of a
hostless room is answered with `NoHost`. -/
theorem c6_stale_viewer_join_silent :
    lookup (run [Event.join "A" "R" true, Event.join "V" "R" false,
        Event.leave "A" "R"]).rooms "R" = none ∧
    step (run [Event.join "A" "R" true, Event.join "V" "R" false,
        Event.leave "A" "R"]) (Event.join "V" "R" false) =
      (run [Event.join "A" "R" true, Event.join "V" "R" false,
        Event.leave "A" "R"], []) := by
  decide

/-- Claim C6 (amended): a viewer join for a room with no host entry, from a
caller not already registered in that room, is answered with exactly one
`NoHost` message to the caller and changes nothing — the Directory,
Registry, room membership and Authorization Set are exactly as before.
(A caller still registered in that room is silently ignored instead, as the
counterexample shows.) -/
theorem c6_viewer_join_no_host (st : ServerState) (sid room : String)
    (hh : lookup st.rooms room = none)
    (hguard : lookup st.connectedClients sid ≠ some room) :
    step st (Event.join sid room false) =
      (st, [(sid, Msg.noHost ("No host found in room: " ++ room))]) := by
  simp [step, handleJoin, hguard, hh]

/-- Claim C6, witness: the fresh viewer `D` joining the hostless room `R2`
from the initial state receives `NoHost` and the state is untouched. -/
theorem c6_viewer_join_no_host_witness :
    step initState (Event.join "D" "R2" false) =
      (initState, [("D", Msg.noHost ("No host found in room: " ++ "R2"))]) :=
  c6_viewer_join_no_host initState "D" "R2" (by decide) (by decide)

/-- Claim C8, counterexample: `A`, already registered in room `R1`, sends a
join for the different room `R2`; the duplicate-join guard only compares
against the same room, so the event is not ignored — the Registry is
rebound to `R2` and `user-joined` is broadcast, contradicting the claim
that a join from an already joined connection is a no-op for any room. -/
theorem c8_cross_room_join_proceeds :
    lookup (run [Event.join "A" "R1" true,
        Event.join "B" "R2" true]).connectedClients "A" = some "R1" ∧
    (step (run [Event.join "A" "R1" true, Event.join "B" "R2" true])
        (Event.join "A" "R2" false)).2 = [("B", Msg.userJoined "A")] ∧
    lookup ((step (run [Event.join "A" "R1" true, Event.join "B" "R2" true])
        (Event.join "A" "R2" false)).1).connectedClients "A" = some "R2" := by
  decide

/-- Claim C8 (amended): a join naming the very room the caller is already
registered in is ignored: it changes no state and emits no message. (A join
for a different room is processed normally, as the counterexample shows.) -/
theorem c8_same_room_duplicate_join_ignored (st : ServerState)
    (sid room : String) (isHost : Bool)
    (hguard : lookup st.connectedClients sid = some room) :
    step st (Event.join sid room isHost) = (st, []) := by
  simp [step, handleJoin, hguard]

/-- Claim C8, witness: the host `A` of room `R` re-sending its join for `R`
is ignored with no state change and no message. -/
theorem c8_same_room_duplicate_join_ignored_witness :
    step (run [Event.join "A" "R" true]) (Event.join "A" "R" true) =
      (run [Event.join "A" "R" true], []) :=
  c8_same_room_duplicate_join_ignored (run [Event.join "A" "R" true])
    "A" "R" true (by decide)

/-- Claim C5: an input event (mouseMove or mouseClick) from a connection `v`
that was never granted access by an approved cursor-response for that room
in the whole history of the relay — or whose registered room differs from
the event's room — is dropped in every reachable state: no message of any
kind is emitted and the state is unchanged. -/
theorem c5_unauthorized_input_dropped (evs : List Event)
    (v room x y b : String)
    (h : grantedIn evs room v = false ∨
      lookup (run evs).connectedClients v ≠ some room) :
    step (run evs) (Event.mouseMove v room x y) = (run evs, []) ∧
    step (run evs) (Event.mouseClick v room b) = (run evs, []) := by
  have hcond : ¬ (lookup (run evs).connectedClients v = some room ∧
      v ∈ authList (run evs) room) := by
    rintro ⟨hreg, hmem⟩
    rcases h with hg | hne
    · rcases authList_runFrom_mem evs initState room v hmem with h0 | h0
      · simp [authList, initState, lookup] at h0
      · rw [hg] at h0
        exact Bool.false_ne_true h0
    · exact hne hreg
  constructor
  · show handleMouseMove (run evs) v room x y = (run evs, [])
    unfold handleMouseMove
    rw [if_neg hcond]
  · show handleMouseClick (run evs) v room b = (run evs, [])
    unfold handleMouseClick
    rw [if_neg hcond]

/-- Claim C5, witness: the viewer `B` of room `R`, never granted access,
sends mouseMove and mouseClick; both are dropped with no reply. -/
theorem c5_unauthorized_input_dropped_witness :
    grantedIn [Event.join "A" "R" true, Event.join "B" "R" false] "R" "B"
        = false ∧
    step (run [Event.join "A" "R" true, Event.join "B" "R" false])
        (Event.mouseMove "B" "R" "0.5" "0.5") =
      (run [Event.join "A" "R" true, Event.join "B" "R" false], []) ∧
    step (run [Event.join "A" "R" true, Event.join "B" "R" false])
        (Event.mouseClick "B" "R" "left") =
      (run [Event.join "A" "R" true, Event.join "B" "R" false], []) :=
  ⟨by decide,
   (c5_unauthorized_input_dropped
      [Event.join "A" "R" true, Event.join "B" "R" false]
      "B" "R" "0.5" "0.5" "left" (Or.inl (by decide))).1,
   (c5_unauthorized_input_dropped
      [Event.join "A" "R" true, Event.join "B" "R" false]
      "B" "R" "0.5" "0.5" "left" (Or.inl (by decide))).2⟩

/-- Claim C3 (amended): in the pendingSignals variant, a signal sent while
the sender is the only member of the room is buffered (appended to the end
of the room's pending queue) and nothing is forwarded; a successful viewer
join of a room with pending queue `q` receives the `user-joined` broadcast
followed by exactly the envelopes of `q`, in order, and the queue entry is
deleted; and over any trace the total number of replayed signal messages per
room plus what is still buffered never exceeds the total number of envelopes
ever buffered for that room, so no envelope is ever delivered twice. In the
`src/server.js` variant there is no buffer: an offer/answer/ice-candidate
sent while the sender is the only member is relayed to nobody and the state
is unchanged (the envelope is lost), and a join never delivers any signaling
payload. -/
theorem c3_mailbox_buffer_replay_once :
    (∀ (st : ServerState) (sid room d : String),
      roomMembers st room = [sid] →
      (step st (Event.signal sid room d)).2 = [] ∧
      lookup ((step st (Event.signal sid room d)).1).pendingSignals room =
        some (((lookup st.pendingSignals room).getD []) ++ [⟨sid, d⟩])) ∧
    (∀ (st : ServerState) (sid room h : String) (q : List Envelope),
      lookup st.connectedClients sid ≠ some room →
      lookup st.rooms room = some h →
      lookup st.pendingSignals room = some q →
      (step st (Event.join sid room false)).2 =
        (removeElem (addElem (roomMembers st room) sid) sid).map
            (fun x => (x, Msg.userJoined sid)) ++
          q.map (fun e => (sid, Msg.signalMsg e)) ∧
      lookup ((step st (Event.join sid room false)).1).pendingSignals room
        = none) ∧
    (∀ (evs : List Event) (room : String),
      replayedFrom initState evs room + pendingLen (run evs) room ≤
        appendedFrom initState evs room) ∧
    (∀ (st : ServerState) (sid room p : String),
      roomMembers st room = [sid] →
      serverJsOffer st sid room p = (st, []) ∧
      serverJsAnswer st sid room p = (st, []) ∧
      serverJsIceCandidate st sid room p = (st, [])) ∧
    (∀ (st : ServerState) (sid room : String) (h : Bool),
      ((serverJsJoin st sid room h).2.filter (fun q => isRelayMsg q.2))
        = []) := by
  refine ⟨?_, ?_, ?_, ?_, ?_⟩
  · intro st sid room d hm
    have hlen : ¬ (roomMembers st room).length > 1 := by
      rw [hm]; simp
    constructor
    · simp [step, handleSignal, hlen]
    · simp [step, handleSignal, hlen, lookup_setKey]
  · intro st sid room h q hguard hh hq
    constructor
    · simp [step, handleJoin, joinCommon, hguard, hh, hq, broadcastTo,
        roomMembers, joinAdapter, lookup_setKey]
    · simp [step, handleJoin, joinCommon, hguard, hh, hq, lookup_eraseKey]
  · intro evs room
    have hb := replayed_pending_bound evs initState room
    simpa [pendingLen, initState, lookup, run] using hb
  · intro st sid room p hm
    refine ⟨?_, ?_, ?_⟩ <;>
      simp [serverJsOffer, serverJsAnswer, serverJsIceCandidate,
        broadcastTo, hm, removeElem]
  · intro st sid room h
    exact serverJsJoin_no_relay st sid room h

/-- Claim C3, counterexample: in the `src/server.js` variant, `A` hosts `R`
alone and sends an offer; the relay forwards it to nobody and records
nothing — the state is exactly unchanged, so no buffer exists to append to —
and the next joining viewer `B` receives only `user-joined`, never the lost
envelope, contradicting the claim's buffering and exactly-once delivery for
this cited code path. -/
theorem c3_server_js_sole_member_signal_lost :
    roomMembers ((serverJsJoin initState "A" "R" true).1) "R" = ["A"] ∧
    serverJsOffer ((serverJsJoin initState "A" "R" true).1) "A" "R" "sdp" =
      ((serverJsJoin initState "A" "R" true).1, []) ∧
    (serverJsJoin ((serverJsJoin initState "A" "R" true).1)
        "B" "R" false).2 = [("A", Msg.userJoined "B")] := by
  decide

/-- Claim C3, witness: `A` hosts `R` alone and signals; the envelope is
buffered, not forwarded; the viewer `B` then joins and receives exactly the
buffered envelope after the `user-joined` broadcast, the queue is cleared,
and the replay count over the whole trace is bounded by the append count.
In the `src/server.js` variant the sole-member relays emit nothing and a
join delivers no signaling payload. -/
theorem c3_mailbox_buffer_replay_once_witness :
    ((step (run [Event.join "A" "R" true]) (Event.signal "A" "R" "o")).2
        = [] ∧
      lookup ((step (run [Event.join "A" "R" true])
          (Event.signal "A" "R" "o")).1).pendingSignals "R" =
        some (((lookup (run [Event.join "A" "R" true]).pendingSignals
          "R").getD []) ++ [⟨"A", "o"⟩])) ∧
    ((step (run [Event.join "A" "R" true, Event.signal "A" "R" "o"])
        (Event.join "B" "R" false)).2 =
      (removeElem (addElem (roomMembers
          (run [Event.join "A" "R" true, Event.signal "A" "R" "o"]) "R")
          "B") "B").map (fun x => (x, Msg.userJoined "B")) ++
        [Envelope.mk "A" "o"].map (fun e => ("B", Msg.signalMsg e)) ∧
      lookup ((step (run [Event.join "A" "R" true, Event.signal "A" "R" "o"])
        (Event.join "B" "R" false)).1).pendingSignals "R" = none) ∧
    (replayedFrom initState [Event.join "A" "R" true, Event.signal "A" "R" "o",
        Event.join "B" "R" false] "R" +
      pendingLen (run [Event.join "A" "R" true, Event.signal "A" "R" "o",
        Event.join "B" "R" false]) "R" ≤
      appendedFrom initState [Event.join "A" "R" true,
        Event.signal "A" "R" "o", Event.join "B" "R" false] "R") ∧
    (serverJsOffer ((serverJsJoin initState "A" "R" true).1) "A" "R" "x" =
        ((serverJsJoin initState "A" "R" true).1, []) ∧
      serverJsAnswer ((serverJsJoin initState "A" "R" true).1) "A" "R" "x" =
        ((serverJsJoin initState "A" "R" true).1, []) ∧
      serverJsIceCandidate ((serverJsJoin initState "A" "R" true).1)
        "A" "R" "x" = ((serverJsJoin initState "A" "R" true).1, [])) ∧
    ((serverJsJoin ((serverJsJoin initState "A" "R" true).1)
        "B" "R" false).2.filter (fun q => isRelayMsg q.2) = []) :=
  ⟨c3_mailbox_buffer_replay_once.1 (run [Event.join "A" "R" true])
      "A" "R" "o" (by decide),
   c3_mailbox_buffer_replay_once.2.1
      (run [Event.join "A" "R" true, Event.signal "A" "R" "o"])
      "B" "R" "A" [Envelope.mk "A" "o"] (by decide) (by decide) (by decide),
   c3_mailbox_buffer_replay_once.2.2.1
      [Event.join "A" "R" true, Event.signal "A" "R" "o",
        Event.join "B" "R" false] "R",
   c3_mailbox_buffer_replay_once.2.2.2.1
      ((serverJsJoin initState "A" "R" true).1) "A" "R" "x" (by decide),
   c3_mailbox_buffer_replay_once.2.2.2.2
      ((serverJsJoin initState "A" "R" true).1) "B" "R" false⟩

/-- Claim C7, counterexample: in the mailbox variant, the host `C` of room
`R` leaves while the mailbox holds a buffered envelope; the handler removes
the directory entry, purges the mailbox and clears the authorization set,
but the broadcast to the remaining member `B` is `user-disconnected`, not
`host-stopped` — no `host-stopped` message is emitted at all. -/
theorem c7_host_leave_emits_user_disconnected :
    lookup (run [Event.join "A" "R" true, Event.join "B" "R" false,
        Event.leave "A" "R", Event.signal "B" "R" "d",
        Event.join "C" "R" true]).pendingSignals "R" =
      some [Envelope.mk "B" "d"] ∧
    (step (run [Event.join "A" "R" true, Event.join "B" "R" false,
        Event.leave "A" "R", Event.signal "B" "R" "d",
        Event.join "C" "R" true]) (Event.leave "C" "R")).2 =
      [("B", Msg.userDisconnected "C")] ∧
    ((step (run [Event.join "A" "R" true, Event.join "B" "R" false,
        Event.leave "A" "R", Event.signal "B" "R" "d",
        Event.join "C" "R" true]) (Event.leave "C" "R")).2.all
      (fun p => decide (p.2 ≠ Msg.hostStopped))) = true ∧
    lookup ((step (run [Event.join "A" "R" true, Event.join "B" "R" false,
        Event.leave "A" "R", Event.signal "B" "R" "d",
        Event.join "C" "R" true]) (Event.leave "C" "R")).1).pendingSignals
      "R" = none := by
  decide

/-- Claim C7 (amended): when the current host of a room leaves or
disconnects, the handler removes the host's directory entry, purges the
room's mailbox, clears the room's entire authorization set and broadcasts a
notification to the remaining members — `user-disconnected` in the mailbox
variant, `host-stopped` in the `src/server.js` variant (which has no
mailbox and leaves the pending map untouched). -/
theorem c7_host_departure_teardown :
    (∀ (st : ServerState) (sid room : String),
      lookup st.rooms room = some sid →
      lookup ((step st (Event.leave sid room)).1).rooms room = none ∧
      lookup ((step st (Event.leave sid room)).1).pendingSignals room
        = none ∧
      lookup ((step st (Event.leave sid room)).1).clientsWithCursorAccess
        room = none ∧
      (step st (Event.leave sid room)).2 =
        (removeElem (roomMembers st room) sid).map
          (fun x => (x, Msg.userDisconnected sid))) ∧
    (∀ (st : ServerState) (sid room : String),
      (st.socketRooms.map Prod.fst).Nodup →
      lookup st.connectedClients sid = some room →
      lookup st.rooms room = some sid →
      lookup ((step st (Event.disconnect sid)).1).rooms room = none ∧
      lookup ((step st (Event.disconnect sid)).1).pendingSignals room
        = none ∧
      lookup ((step st (Event.disconnect sid)).1).clientsWithCursorAccess
        room = none ∧
      (step st (Event.disconnect sid)).2 =
        (removeElem (roomMembers st room) sid).map
          (fun x => (x, Msg.userDisconnected sid))) ∧
    (∀ (st : ServerState) (sid room : String),
      lookup st.rooms room = some sid →
      lookup ((serverJsLeave st sid room).1).rooms room = none ∧
      lookup ((serverJsLeave st sid room).1).clientsWithCursorAccess room
        = none ∧
      ((serverJsLeave st sid room).1).pendingSignals = st.pendingSignals ∧
      (serverJsLeave st sid room).2 =
        (removeElem (roomMembers st room) sid).map
          (fun x => (x, Msg.hostStopped))) ∧
    (∀ (st : ServerState) (sid room : String),
      (st.socketRooms.map Prod.fst).Nodup →
      lookup st.connectedClients sid = some room →
      lookup st.rooms room = some sid →
      lookup ((serverJsDisconnect st sid).1).rooms room = none ∧
      lookup ((serverJsDisconnect st sid).1).clientsWithCursorAccess room
        = none ∧
      ((serverJsDisconnect st sid).1).pendingSignals = st.pendingSignals ∧
      (serverJsDisconnect st sid).2 =
        (removeElem (roomMembers st room) sid).map
          (fun x => (x, Msg.hostStopped))) := by
  refine ⟨?_, ?_, ?_, ?_⟩
  · intro st sid room hh
    refine ⟨?_, ?_, ?_, ?_⟩
    · simp [step, handleLeave, hh, lookup_eraseKey]
    · simp [step, handleLeave, hh, lookup_eraseKey]
    · simp [step, handleLeave, hh, lookup_eraseKey]
    · simp [step, handleLeave, hh, broadcastTo, roomMembers,
        lookup_leaveAdapter_getD, removeElem_removeElem]
  · intro st sid room hnd hreg hh
    refine ⟨?_, ?_, ?_, ?_⟩
    · simp [step, handleDisconnect, hreg, hh, lookup_eraseKey]
    · simp [step, handleDisconnect, hreg, hh, lookup_eraseKey]
    · simp [step, handleDisconnect, hreg, hh, lookup_eraseKey]
    · simp [step, handleDisconnect, hreg, hh, broadcastTo, roomMembers,
        lookup_leaveAllAdapter_getD _ _ _ hnd, removeElem_removeElem]
  · intro st sid room hh
    refine ⟨?_, ?_, ?_, ?_⟩
    · simp [serverJsLeave, hh, lookup_eraseKey]
    · simp [serverJsLeave, hh, lookup_eraseKey]
    · simp [serverJsLeave, hh]
    · simp [serverJsLeave, hh, broadcastTo, roomMembers,
        lookup_leaveAdapter_getD, removeElem_removeElem]
  · intro st sid room hnd hreg hh
    refine ⟨?_, ?_, ?_, ?_⟩
    · simp [serverJsDisconnect, hreg, hh, lookup_eraseKey]
    · simp [serverJsDisconnect, hreg, hh, lookup_eraseKey]
    · simp [serverJsDisconnect, hreg, hh]
    · simp [serverJsDisconnect, hreg, hh, broadcastTo, roomMembers,
        lookup_leaveAllAdapter_getD _ _ _ hnd, removeElem_removeElem]

/-- Claim C7, witness: `A` hosts `R` with viewer `B`; `A`'s leave and
disconnect in the mailbox variant and its leave and disconnect in the
`src/server.js` variant (each applied to its own copy of the state) all
tear the room down, with the respective broadcasts to `B`. -/
theorem c7_host_departure_teardown_witness :
    (lookup ((step (run [Event.join "A" "R" true, Event.join "B" "R" false])
        (Event.leave "A" "R")).1).rooms "R" = none ∧
      lookup ((step (run [Event.join "A" "R" true, Event.join "B" "R" false])
        (Event.leave "A" "R")).1).pendingSignals "R" = none ∧
      lookup ((step (run [Event.join "A" "R" true, Event.join "B" "R" false])
        (Event.leave "A" "R")).1).clientsWithCursorAccess "R" = none ∧
      (step (run [Event.join "A" "R" true, Event.join "B" "R" false])
        (Event.leave "A" "R")).2 =
        (removeElem (roomMembers (run [Event.join "A" "R" true,
          Event.join "B" "R" false]) "R") "A").map
          (fun x => (x, Msg.userDisconnected "A"))) ∧
    (lookup ((step (run [Event.join "A" "R" true, Event.join "B" "R" false])
        (Event.disconnect "A")).1).rooms "R" = none ∧
      lookup ((step (run [Event.join "A" "R" true, Event.join "B" "R" false])
        (Event.disconnect "A")).1).pendingSignals "R" = none ∧
      lookup ((step (run [Event.join "A" "R" true, Event.join "B" "R" false])
        (Event.disconnect "A")).1).clientsWithCursorAccess "R" = none ∧
      (step (run [Event.join "A" "R" true, Event.join "B" "R" false])
        (Event.disconnect "A")).2 =
        (removeElem (roomMembers (run [Event.join "A" "R" true,
          Event.join "B" "R" false]) "R") "A").map
          (fun x => (x, Msg.userDisconnected "A"))) ∧
    (lookup ((serverJsLeave (run [Event.join "A" "R" true,
        Event.join "B" "R" false]) "A" "R").1).rooms "R" = none ∧
      lookup ((serverJsLeave (run [Event.join "A" "R" true,
        Event.join "B" "R" false]) "A" "R").1).clientsWithCursorAccess "R"
        = none ∧
      ((serverJsLeave (run [Event.join "A" "R" true,
        Event.join "B" "R" false]) "A" "R").1).pendingSignals =
        (run [Event.join "A" "R" true,
          Event.join "B" "R" false]).pendingSignals ∧
      (serverJsLeave (run [Event.join "A" "R" true,
        Event.join "B" "R" false]) "A" "R").2 =
        (removeElem (roomMembers (run [Event.join "A" "R" true,
          Event.join "B" "R" false]) "R") "A").map
          (fun x => (x, Msg.hostStopped))) ∧
    (lookup ((serverJsDisconnect (run [Event.join "A" "R" true,
        Event.join "B" "R" false]) "A").1).rooms "R" = none ∧
      lookup ((serverJsDisconnect (run [Event.join "A" "R" true,
        Event.join "B" "R" false]) "A").1).clientsWithCursorAccess "R"
        = none ∧
      ((serverJsDisconnect (run [Event.join "A" "R" true,
        Event.join "B" "R" false]) "A").1).pendingSignals =
        (run [Event.join "A" "R" true,
          Event.join "B" "R" false]).pendingSignals ∧
      (serverJsDisconnect (run [Event.join "A" "R" true,
        Event.join "B" "R" false]) "A").2 =
        (removeElem (roomMembers (run [Event.join "A" "R" true,
          Event.join "B" "R" false]) "R") "A").map
          (fun x => (x, Msg.hostStopped))) :=
  ⟨c7_host_departure_teardown.1
      (run [Event.join "A" "R" true, Event.join "B" "R" false]) "A" "R"
      (by decide),
   c7_host_departure_teardown.2.1
      (run [Event.join "A" "R" true, Event.join "B" "R" false]) "A" "R"
      (by decide) (by decide) (by decide),
   c7_host_departure_teardown.2.2.1
      (run [Event.join "A" "R" true, Event.join "B" "R" false]) "A" "R"
      (by decide),
   c7_host_departure_teardown.2.2.2
      (run [Event.join "A" "R" true, Event.join "B" "R" false]) "A" "R"
      (by decide) (by decide) (by decide)⟩

end WebShare
